import Mathlib

/-!
Verification of the tiered information-retrieval router of
`ava-olo-document-search` against its specification.

The development shallowly embeds the two source files:

* `src/core/information_hierarchy.py` — data model (`InformationRelevance`,
  `InformationItem`, `LocalizationContext`, `InformationSource`,
  `InformationQuery`, `InformationResult`), the source registry, the tiered
  query router `query_information` with its per-tier helpers and mock
  retrieval methods, the context hash `_hash_context` (SHA-256 based), and
  the privacy validator `validate_privacy_compliance`.
* `src/knowledge_search.py` — the knowledge-base collaborator: `search`
  (which catches its own failures and returns an empty list), `add_document`
  (returns a boolean, catching all per-document failures) and
  `bulk_index_fis_documents` (fold of `add_document` with statistics).

Python-specific conventions used by the embedding:

* Python truthiness tests on `Optional[int]` / `str` are embedded by
  `optIntTruthy` / `strTruthy` (0, `None` and `""` are falsy).
* Python list slicing `l[:n]` with an `int` bound (possibly negative) is
  embedded by `pySlice`.
* `self.sources` is a `dict` keyed by `source_id`; Python dicts preserve
  insertion order and overwriting a key keeps its position, embedded by a
  list with `registerSource` as insert-or-overwrite-in-place.
* Machine-independent effects that the claims do not constrain
  (`datetime.utcnow()`) are passed in as an explicit `now : String`
  argument; logging calls are ignored (they do not affect the data flow).
* Exceptions are embedded with `Except`: a collaborator call that may raise
  is a function into `Except String _`, and Python's propagation of an
  uncaught exception is the monadic bind of `Except`.
-/

namespace AvaOlo

/-- Enum `InformationRelevance` (information_hierarchy.py lines 28-32). -/
inductive InformationRelevance where
  | FARMER_SPECIFIC
  | COUNTRY_SPECIFIC
  | GLOBAL
deriving DecidableEq, Repr

/-- Dataclass `InformationItem` (lines 34-43).  The free-form `metadata`
dict is embedded as an optional association list of string pairs; the mock
methods fill it with string renderings of the Python literals. -/
structure InformationItem where
  content : String
  relevance : InformationRelevance
  farmer_id : Option Int := none
  country_code : Option String := none
  language : Option String := none
  source_type : String := "unknown"
  metadata : Option (List (String × String)) := none
deriving DecidableEq, Repr

/-- Dataclass `LocalizationContext` (lines 45-55). -/
structure LocalizationContext where
  whatsapp_number : String
  country_code : String
  country_name : String
  languages : List String
  farmer_id : Option Int := none
  preferred_language : Option String := none
  timezone : Option String := none
  agricultural_zones : Option (List String) := none
deriving DecidableEq, Repr

/-- Dataclass `InformationSource` (lines 67-76). -/
structure InformationSource where
  source_id : String
  source_type : String
  source_name : String
  can_access_farmer_data : Bool := false
  can_access_country_data : Bool := true
  can_access_global_data : Bool := true
  metadata : List (String × String) := []
deriving DecidableEq, Repr

/-- Dataclass `InformationQuery` (lines 79-92).  `max_items_per_level` is a
Python `int`, hence `Int` (it may be negative). -/
structure InformationQuery where
  query_text : String
  context : LocalizationContext
  required_relevance_levels : List InformationRelevance :=
    [InformationRelevance.FARMER_SPECIFIC,
     InformationRelevance.COUNTRY_SPECIFIC,
     InformationRelevance.GLOBAL]
  max_items_per_level : Int := 5
  include_metadata : Bool := true
deriving DecidableEq, Repr

/-- The metadata dict assigned by `query_information` (lines 203-208): keys
`query_timestamp`, `sources_used`, `total_items`, `context_hash`. -/
structure ResultMetadata where
  query_timestamp : String
  sources_used : List String
  total_items : Nat
  context_hash : String
deriving DecidableEq, Repr

/-- Dataclass `InformationResult` (lines 95-102); `query_information` always
assigns the metadata before returning, so it is a plain field here. -/
structure InformationResult where
  query : InformationQuery
  farmer_items : List InformationItem := []
  country_items : List InformationItem := []
  global_items : List InformationItem := []
  metadata : ResultMetadata
deriving DecidableEq, Repr

/-- Method `InformationResult.get_all_items_by_priority` (lines 104-106). -/
def InformationResult.get_all_items_by_priority (r : InformationResult) :
    List InformationItem :=
  r.farmer_items ++ r.country_items ++ r.global_items

/-- Python truthiness of an `Optional[int]`: `None` and `0` are falsy. -/
def optIntTruthy : Option Int → Bool
  | none => false
  | some n => n ≠ 0

/-- Python truthiness of a `str`: the empty string is falsy. -/
def strTruthy (s : String) : Bool := s ≠ ""

/-- Python `str(x)` for an `Optional[int]` as an f-string renders it
(`None` for the missing case). -/
def optIntStr : Option Int → String
  | none => "None"
  | some n => toString n

/-- Python f-string rendering of an `Optional[str]`. -/
def optStrStr : Option String → String
  | none => "None"
  | some s => s

/-- Python list slicing `l[:n]` for an `int` bound `n`: a non-negative `n`
keeps the first `n` elements; a negative `n` drops the last `|n|` elements
(clipped at the empty list). -/
def pySlice {α : Type} (n : Int) (l : List α) : List α :=
  if 0 ≤ n then l.take n.toNat
  else l.take ((l.length : Int) + n).toNat

/-- Method `register_source` (lines 168-171): `self.sources[source.source_id] =
source` on an insertion-ordered dict — overwrite in place if the id is
present, else append. -/
def registerSource (sources : List InformationSource)
    (s : InformationSource) : List InformationSource :=
  if sources.any (fun t => t.source_id = s.source_id) then
    sources.map (fun t => if t.source_id = s.source_id then s else t)
  else
    sources ++ [s]

/-- The three sources of `_register_default_sources` (lines 136-166). -/
def farmerDbSource : InformationSource :=
  { source_id := "farmer_db", source_type := "database",
    source_name := "Farmer Database",
    can_access_farmer_data := true, can_access_country_data := true,
    can_access_global_data := false }

def ragKnowledgeSource : InformationSource :=
  { source_id := "rag_knowledge", source_type := "rag",
    source_name := "Agricultural Knowledge Base",
    can_access_farmer_data := false, can_access_country_data := true,
    can_access_global_data := true }

def externalSearchSource : InformationSource :=
  { source_id := "external_search", source_type := "external",
    source_name := "Web Search (Perplexity)",
    can_access_farmer_data := false, can_access_country_data := false,
    can_access_global_data := true }

/-- The registry after `__init__` ran `_register_default_sources`. -/
def defaultSources : List InformationSource :=
  registerSource
    (registerSource (registerSource [] farmerDbSource) ragKnowledgeSource)
    externalSearchSource

/-- Mock method `_mock_farmer_database_query` (lines 286-297).  The embedded relevance
score and table names are rendered as strings. -/
def mockFarmerDatabaseQuery (query : InformationQuery) :
    List InformationItem :=
  [{ content := "Farmer " ++ optIntStr query.context.farmer_id ++
       "\x27s fields and current crops",
     relevance := InformationRelevance.FARMER_SPECIFIC,
     farmer_id := query.context.farmer_id,
     source_type := "database",
     metadata := some [("table", "fields"),
                       ("query_type", "farmer_overview")] }]

/-- Mock method `_mock_country_rag_query` (lines 299-310). -/
def mockCountryRagQuery (query : InformationQuery) : List InformationItem :=
  [{ content := "Agricultural regulations in " ++
       query.context.country_name,
     relevance := InformationRelevance.COUNTRY_SPECIFIC,
     country_code := some query.context.country_code,
     source_type := "rag",
     metadata := some [("document", "country_regulations"),
                       ("relevance_score", "0.95")] }]

/-- Mock method `_mock_global_query` (lines 312-322). -/
def mockGlobalQuery (_query : InformationQuery) : List InformationItem :=
  [{ content := "General agricultural best practices",
     relevance := InformationRelevance.GLOBAL,
     source_type := "rag",
     metadata := some [("document", "global_agriculture"),
                       ("relevance_score", "0.85")] }]

/-- Method `_query_farmer_specific` (lines 215-233): iterate the registry in
order; a source with `can_access_farmer_data` and a truthy
`context.farmer_id` is considered, and its retrieval (the mock database
query) runs only when `source_type == "database"`. -/
def queryFarmerSpecific (sources : List InformationSource)
    (query : InformationQuery) : List InformationItem :=
  sources.foldl
    (fun items source =>
      if source.can_access_farmer_data &&
          optIntTruthy query.context.farmer_id then
        if source.source_type = "database" then
          items ++ mockFarmerDatabaseQuery query
        else items
      else items)
    []

/-- Method `_query_country_specific` (lines 235-248): capability flag, truthy
`context.country_code`, and the retrieval runs only for
`source_type == "rag"`. -/
def queryCountrySpecific (sources : List InformationSource)
    (query : InformationQuery) : List InformationItem :=
  sources.foldl
    (fun items source =>
      if source.can_access_country_data &&
          strTruthy query.context.country_code then
        if source.source_type = "rag" then
          items ++ mockCountryRagQuery query
        else items
      else items)
    []

/-- Method `_query_global` (lines 250-263): capability flag only, and the
retrieval runs only for `source_type in ["rag", "external"]`. -/
def queryGlobal (sources : List InformationSource)
    (query : InformationQuery) : List InformationItem :=
  sources.foldl
    (fun items source =>
      if source.can_access_global_data then
        if source.source_type = "rag" ∨ source.source_type = "external" then
          items ++ mockGlobalQuery query
        else items
      else items)
    []

/-- Method `_hash_context` is defined below once the SHA-256 digest is in place;
`hashContextStr` is the string it hashes (line 267):
`f"{context.whatsapp_number}:{context.country_code}:{context.preferred_language}"`. -/
def hashContextStr (context : LocalizationContext) : String :=
  context.whatsapp_number ++ ":" ++ context.country_code ++ ":" ++
    optStrStr context.preferred_language

/-!
SHA-256 (FIPS 180-4), the digest behind Python's `hashlib.sha256`, computed
over the UTF-8 encoding of the input string (Python's `str.encode()`).
Words are `Nat` values kept below `2 ^ 32` by explicit reduction.
-/

namespace Sha256

/-- Modulus of a 32-bit word. -/
def w32 : Nat := 4294967296

/-- Word addition modulo `2 ^ 32`. -/
def add32 (a b : Nat) : Nat := (a + b) % w32

/-- Right rotation of a 32-bit word. -/
def rotr (n x : Nat) : Nat := ((x >>> n) ||| (x <<< (32 - n))) % w32

/-- Big sigma-0 of FIPS 180-4. -/
def bigSigma0 (x : Nat) : Nat := (rotr 2 x) ^^^ (rotr 13 x) ^^^ (rotr 22 x)

/-- Big sigma-1 of FIPS 180-4. -/
def bigSigma1 (x : Nat) : Nat := (rotr 6 x) ^^^ (rotr 11 x) ^^^ (rotr 25 x)

/-- Small sigma-0 of FIPS 180-4. -/
def smallSigma0 (x : Nat) : Nat := (rotr 7 x) ^^^ (rotr 18 x) ^^^ (x >>> 3)

/-- Small sigma-1 of FIPS 180-4. -/
def smallSigma1 (x : Nat) : Nat := (rotr 17 x) ^^^ (rotr 19 x) ^^^ (x >>> 10)

/-- Choice function; the complement is taken inside 32 bits. -/
def chF (x y z : Nat) : Nat := (x &&& y) ^^^ ((x ^^^ (w32 - 1)) &&& z)

/-- Majority function. -/
def maj (x y z : Nat) : Nat := (x &&& y) ^^^ (x &&& z) ^^^ (y &&& z)

/-- Round constants, in decimal. -/
def K : List Nat :=
  [1116352408, 1899447441, 3049323471, 3921009573,
   961987163, 1508970993, 2453635748, 2870763221,
   3624381080, 310598401, 607225278, 1426881987,
   1925078388, 2162078206, 2614888103, 3248222580,
   3835390401, 4022224774, 264347078, 604807628,
   770255983, 1249150122, 1555081692, 1996064986,
   2554220882, 2821834349, 2952996808, 3210313671,
   3336571891, 3584528711, 113926993, 338241895,
   666307205, 773529912, 1294757372, 1396182291,
   1695183700, 1986661051, 2177026350, 2456956037,
   2730485921, 2820302411, 3259730800, 3345764771,
   3516065817, 3600352804, 4094571909, 275423344,
   430227734, 506948616, 659060556, 883997877,
   958139571, 1322822218, 1537002063, 1747873779,
   1955562222, 2024104815, 2227730452, 2361852424,
   2428436474, 2756734187, 3204031479, 3329325298]

/-- Eight 32-bit registers: the working variables and the running hash. -/
structure Regs where
  a : Nat
  b : Nat
  c : Nat
  d : Nat
  e : Nat
  f : Nat
  g : Nat
  h : Nat
deriving DecidableEq, Repr

/-- Initial hash value, in decimal. -/
def initHash : Regs :=
  { a := 1779033703, b := 3144134277, c := 1013904242, d := 2773480762,
    e := 1359893119, f := 2600822924, g := 528734635, h := 1541459225 }

/-- UTF-8 encoding of one character as bytes. -/
def encodeChar (c : Char) : List Nat :=
  let n := c.toNat
  if n < 128 then [n]
  else if n < 2048 then [192 + n / 64, 128 + n % 64]
  else if n < 65536 then
    [224 + n / 4096, 128 + (n / 64) % 64, 128 + n % 64]
  else
    [240 + n / 262144, 128 + (n / 4096) % 64, 128 + (n / 64) % 64,
     128 + n % 64]

/-- UTF-8 encoding of a string, as Python's `str.encode()` produces. -/
def utf8Encode (s : String) : List Nat := (s.data.map encodeChar).flatten

/-- Big-endian 64-bit length field of the padding. -/
def lenBytes (n : Nat) : List Nat :=
  [n / 2 ^ 56 % 256, n / 2 ^ 48 % 256, n / 2 ^ 40 % 256, n / 2 ^ 32 % 256,
   n / 2 ^ 24 % 256, n / 2 ^ 16 % 256, n / 2 ^ 8 % 256, n % 256]

/-- Message padding: a `0x80` byte, zeros to 56 mod 64, then the bit
length. -/
def padBytes (msg : List Nat) : List Nat :=
  let L := msg.length
  msg ++ [128] ++ List.replicate ((119 - L % 64) % 64) 0 ++ lenBytes (8 * L)

/-- Group bytes into big-endian 32-bit words. -/
def bytesToWords : List Nat → List Nat
  | b0 :: b1 :: b2 :: b3 :: rest =>
    (b0 * 16777216 + b1 * 65536 + b2 * 256 + b3) :: bytesToWords rest
  | _ => []

/-- Split the padded byte stream into 64-byte blocks. -/
def toBlocks (l : List Nat) : List (List Nat) :=
  if h : l = [] then []
  else l.take 64 :: toBlocks (l.drop 64)
termination_by l.length
decreasing_by
  simp only [List.length_drop]
  exact Nat.sub_lt (List.length_pos.mpr h) (by norm_num)

/-- One extension step of the message schedule. -/
def scheduleStep (ws : List Nat) : List Nat :=
  let t := ws.length
  ws ++ [add32 (add32 (smallSigma1 (ws.getD (t - 2) 0)) (ws.getD (t - 7) 0))
           (add32 (smallSigma0 (ws.getD (t - 15) 0)) (ws.getD (t - 16) 0))]

/-- Iterate the schedule extension. -/
def extendSchedule : Nat → List Nat → List Nat
  | 0, ws => ws
  | n + 1, ws => extendSchedule n (scheduleStep ws)

/-- Message schedule: the 16 block words extended to 64. -/
def msgSchedule (block16 : List Nat) : List Nat := extendSchedule 48 block16

/-- One compression round. -/
def roundStep (r : Regs) (kw : Nat × Nat) : Regs :=
  let t1 := add32 r.h (add32 (bigSigma1 r.e)
    (add32 (chF r.e r.f r.g) (add32 kw.1 kw.2)))
  let t2 := add32 (bigSigma0 r.a) (maj r.a r.b r.c)
  { a := add32 t1 t2, b := r.a, c := r.b, d := r.c,
    e := add32 r.d t1, f := r.e, g := r.f, h := r.g }

/-- Compress one message block into the running hash. -/
def compressBlock (hv : Regs) (block16 : List Nat) : Regs :=
  let r := (K.zip (msgSchedule block16)).foldl roundStep hv
  { a := add32 hv.a r.a, b := add32 hv.b r.b, c := add32 hv.c r.c,
    d := add32 hv.d r.d, e := add32 hv.e r.e, f := add32 hv.f r.f,
    g := add32 hv.g r.g, h := add32 hv.h r.h }

/-- Final hash registers of a string. -/
def sha256Regs (s : String) : Regs :=
  ((toBlocks (padBytes (utf8Encode s))).map bytesToWords).foldl
    compressBlock initHash

/-- Lower-case hexadecimal digit, as Python's `hexdigest` uses. -/
def hexDigit (n : Nat) : Char :=
  if n < 10 then Char.ofNat (48 + n) else Char.ofNat (87 + n)

/-- Eight hexadecimal characters of one 32-bit word, most significant
nibble first. -/
def wordHex (w : Nat) : List Char :=
  [hexDigit (w / 16 ^ 7 % 16), hexDigit (w / 16 ^ 6 % 16),
   hexDigit (w / 16 ^ 5 % 16), hexDigit (w / 16 ^ 4 % 16),
   hexDigit (w / 16 ^ 3 % 16), hexDigit (w / 16 ^ 2 % 16),
   hexDigit (w / 16 % 16), hexDigit (w % 16)]

/-- Characters of `hashlib.sha256(s.encode()).hexdigest()`. -/
def sha256HexChars (s : String) : List Char :=
  wordHex (sha256Regs s).a ++ wordHex (sha256Regs s).b ++
    wordHex (sha256Regs s).c ++ wordHex (sha256Regs s).d ++
    wordHex (sha256Regs s).e ++ wordHex (sha256Regs s).f ++
    wordHex (sha256Regs s).g ++ wordHex (sha256Regs s).h

end Sha256

/-- Method `_hash_context` (lines 265-268):
`hashlib.sha256(context_str.encode()).hexdigest()[:16]` over
`hashContextStr`. -/
def hashContext (context : LocalizationContext) : String :=
  ⟨(Sha256.sha256HexChars (hashContextStr context)).take 16⟩

/-- Method `validate_privacy_compliance` (lines 324-341): reject a
farmer-specific item from a source without `can_access_farmer_data`, reject
a country-specific item from a source without `can_access_country_data`,
accept everything else.  The `logger.error` side effects carry no data. -/
def validatePrivacyCompliance (item : InformationItem)
    (source : InformationSource) : Bool :=
  if item.relevance = InformationRelevance.FARMER_SPECIFIC ∧
      source.can_access_farmer_data = false then false
  else if item.relevance = InformationRelevance.COUNTRY_SPECIFIC ∧
      source.can_access_country_data = false then false
  else true

/-- Candidates of the farmer tier inside `query_information` (lines
184-188): computed only when the level is required, otherwise the result
list keeps its empty default. -/
def farmerCandidates (sources : List InformationSource)
    (q : InformationQuery) : List InformationItem :=
  if InformationRelevance.FARMER_SPECIFIC ∈ q.required_relevance_levels then
    queryFarmerSpecific sources q
  else []

/-- Candidates of the country tier inside `query_information` (lines
190-194). -/
def countryCandidates (sources : List InformationSource)
    (q : InformationQuery) : List InformationItem :=
  if InformationRelevance.COUNTRY_SPECIFIC ∈ q.required_relevance_levels then
    queryCountrySpecific sources q
  else []

/-- Candidates of the global tier inside `query_information` (lines
196-200). -/
def globalCandidates (sources : List InformationSource)
    (q : InformationQuery) : List InformationItem :=
  if InformationRelevance.GLOBAL ∈ q.required_relevance_levels then
    queryGlobal sources q
  else []

/-- Assembly tail of `query_information` (lines 178-213): truncate each
tier with Python slicing `[:max_items_per_level]`, record in
`sources_used` the tiers whose untruncated candidate list was truthy
(lines 187-188, 193-194, 199-200), and attach the metadata dict. -/
def assembleResult (now : String) (q : InformationQuery)
    (farmerCand countryCand globalCand : List InformationItem) :
    InformationResult :=
  let fi := pySlice q.max_items_per_level farmerCand
  let ci := pySlice q.max_items_per_level countryCand
  let gi := pySlice q.max_items_per_level globalCand
  let sourcesUsed :=
    (if farmerCand.isEmpty then [] else ["farmer_specific"]) ++
    (if countryCand.isEmpty then [] else ["country_specific"]) ++
    (if globalCand.isEmpty then [] else ["global"])
  { query := q, farmer_items := fi, country_items := ci, global_items := gi,
    metadata :=
      { query_timestamp := now, sources_used := sourcesUsed,
        total_items := (fi ++ ci ++ gi).length,
        context_hash := hashContext q.context } }

/-- Method `query_information` (lines 173-213), the sole entry point:
per-tier candidate collection followed by assembly.  `now` stands for
`datetime.utcnow().isoformat()`; `_log_query` only logs. -/
def queryInformation (now : String) (sources : List InformationSource)
    (q : InformationQuery) : InformationResult :=
  assembleResult now q (farmerCandidates sources q)
    (countryCandidates sources q) (globalCandidates sources q)

/-- Instrumented entry point for the privacy-enforcement claim: the result
of `query_information` paired with the list of `(item, source)` argument
pairs on which `validate_privacy_compliance` is invoked during the call.
Translated from the source: neither `query_information` (lines 173-213)
nor the tier helpers (lines 215-263) nor the mock retrieval methods (lines
286-322) contain any call to `validate_privacy_compliance` (lines
324-341), so the invocation list is empty on every path. -/
def queryInformationChecked (now : String)
    (sources : List InformationSource) (q : InformationQuery) :
    InformationResult × List (InformationItem × InformationSource) :=
  (queryInformation now sources q, [])

/-!
Failure semantics.  Spec section 6 makes the per-source retrieval an
external collaborator, and section 9 says the mock methods merely stand in
for it.  To examine what `query_information` does when a retrieval call
raises, the per-tier retrieval call sites (`_mock_farmer_database_query`,
`_mock_country_rag_query`, `_mock_global_query` — lines 231, 246, 261) are
abstracted into `Retrieval` functions that may raise; the surrounding
control flow is translated unchanged.  `query_information` and its helpers
contain no `try`/`except`, so a raise propagates by monadic bind.
-/

/-- A per-source retrieval capability that may raise. -/
def Retrieval : Type :=
  InformationSource → InformationQuery →
    Except String (List InformationItem)

/-- Method `_query_farmer_specific` with its retrieval call site abstracted;
an uncaught exception from `retrieve` propagates (there is no handler in
lines 215-233). -/
def queryFarmerSpecificE (retrieve : Retrieval)
    (sources : List InformationSource) (q : InformationQuery) :
    Except String (List InformationItem) :=
  sources.foldlM
    (fun items source =>
      if source.can_access_farmer_data &&
          optIntTruthy q.context.farmer_id then
        if source.source_type = "database" then do
          let new ← retrieve source q
          pure (items ++ new)
        else pure items
      else pure items)
    []

/-- Method `_query_country_specific` with its retrieval call site
abstracted. -/
def queryCountrySpecificE (retrieve : Retrieval)
    (sources : List InformationSource) (q : InformationQuery) :
    Except String (List InformationItem) :=
  sources.foldlM
    (fun items source =>
      if source.can_access_country_data &&
          strTruthy q.context.country_code then
        if source.source_type = "rag" then do
          let new ← retrieve source q
          pure (items ++ new)
        else pure items
      else pure items)
    []

/-- Method `_query_global` with its retrieval call site abstracted. -/
def queryGlobalE (retrieve : Retrieval)
    (sources : List InformationSource) (q : InformationQuery) :
    Except String (List InformationItem) :=
  sources.foldlM
    (fun items source =>
      if source.can_access_global_data then
        if source.source_type = "rag" ∨ source.source_type = "external" then
          do
            let new ← retrieve source q
            pure (items ++ new)
        else pure items
      else pure items)
    []

/-- Method `query_information` with the three retrieval call sites
abstracted: no handler exists in lines 173-213, so a raise in any tier
aborts the whole call. -/
def queryInformationE (now : String) (sources : List InformationSource)
    (q : InformationQuery) (fR cR gR : Retrieval) :
    Except String InformationResult := do
  let farmerCand ←
    if InformationRelevance.FARMER_SPECIFIC ∈ q.required_relevance_levels
    then queryFarmerSpecificE fR sources q
    else pure []
  let countryCand ←
    if InformationRelevance.COUNTRY_SPECIFIC ∈ q.required_relevance_levels
    then queryCountrySpecificE cR sources q
    else pure []
  let globalCand ←
    if InformationRelevance.GLOBAL ∈ q.required_relevance_levels
    then queryGlobalE gR sources q
    else pure []
  pure (assembleResult now q farmerCand countryCand globalCand)

/-- The mock retrieval of the farmer tier, as wired in line 231. -/
def mockFarmerRetrieval : Retrieval :=
  fun _ q => Except.ok (mockFarmerDatabaseQuery q)

/-- The mock retrieval of the country tier, as wired in line 246. -/
def mockCountryRetrieval : Retrieval :=
  fun _ q => Except.ok (mockCountryRagQuery q)

/-- The mock retrieval of the global tier, as wired in line 261. -/
def mockGlobalRetrieval : Retrieval :=
  fun _ q => Except.ok (mockGlobalQuery q)

/-- Sources whose farmer-tier retrieval call site is actually reached
(lines 222-231): capability flag, truthy `farmer_id`, and
`source_type == "database"`. -/
def invokedFarmerSources (sources : List InformationSource)
    (q : InformationQuery) : List InformationSource :=
  sources.filter (fun s =>
    s.can_access_farmer_data && optIntTruthy q.context.farmer_id &&
      (s.source_type == "database"))

/-- Sources whose country-tier retrieval call site is actually reached
(lines 239-246). -/
def invokedCountrySources (sources : List InformationSource)
    (q : InformationQuery) : List InformationSource :=
  sources.filter (fun s =>
    s.can_access_country_data && strTruthy q.context.country_code &&
      (s.source_type == "rag"))

/-- Sources whose global-tier retrieval call site is actually reached
(lines 254-261). -/
def invokedGlobalSources (sources : List InformationSource)
    (_q : InformationQuery) : List InformationSource :=
  sources.filter (fun s =>
    s.can_access_global_data &&
      ((s.source_type == "rag") || (s.source_type == "external")))

/-- Spec-side eligibility for the global tier, modelled from the claim
wording (spec section 4.3 step 1): every registered source whose
`can_access_global_data` flag is true, with no condition on
`source_type`.  Compared against `queryGlobal` for claim C4. -/
def specEligibleGlobalSources (sources : List InformationSource) :
    List InformationSource :=
  sources.filter (fun s => s.can_access_global_data)

/-!
Embedding of `src/knowledge_search.py`.  The OpenAI embedding call and both
Pinecone index calls are external collaborators; they appear as function
parameters returning `Except`.  Embedding vectors are `List Int` (the
source passes the float vector through untouched, so its element type is
irrelevant to the claims); Pinecone match scores are likewise carried
opaquely as strings.
-/

/-- Lookup in a string-keyed metadata map, with a Python `dict.get`
default. -/
def metaGet (m : List (String × String)) (key dflt : String) : String :=
  match m.find? (fun p => p.1 = key) with
  | some p => p.2
  | none => dflt

/-- Python `key in dict` on a metadata map. -/
def metaHas (m : List (String × String)) (key : String) : Bool :=
  (m.find? (fun p => p.1 = key)).isSome

/-- One Pinecone match as read by `search` (knowledge_search.py lines
60-79): `id`, `score` and the metadata map. -/
structure PineconeMatch where
  id : String
  score : String
  metadata : List (String × String)
deriving DecidableEq, Repr

/-- One document dict built by `search` (lines 61-79): base fields with
`dict.get` defaults, plus optional `crop` / `chemical` / `phi_days` keys
copied when present in the match metadata. -/
structure SearchDoc where
  id : String
  score : String
  text : String
  source : String
  document_type : String
  language : String
  metadata : List (String × String)
  crop : Option String := none
  chemical : Option String := none
  phi_days : Option String := none
deriving DecidableEq, Repr

/-- The per-match document construction of `search` (lines 60-79). -/
def matchToDoc (m : PineconeMatch) : SearchDoc :=
  { id := m.id, score := m.score,
    text := metaGet m.metadata "text" "",
    source := metaGet m.metadata "source" "unknown",
    document_type := metaGet m.metadata "document_type" "general",
    language := metaGet m.metadata "language" "hr",
    metadata := m.metadata,
    crop := if metaHas m.metadata "crop" then
        some (metaGet m.metadata "crop" "") else none,
    chemical := if metaHas m.metadata "chemical" then
        some (metaGet m.metadata "chemical" "") else none,
    phi_days := if metaHas m.metadata "phi_days" then
        some (metaGet m.metadata "phi_days" "") else none }

/-- Method `_build_filter` (lines 195-211): copy the four recognized keys,
lower-casing `crop` and `chemical`. -/
def buildFilter (filters : List (String × String)) :
    List (String × String) :=
  (if metaHas filters "document_type" then
    [("document_type", metaGet filters "document_type" "")] else []) ++
  (if metaHas filters "crop" then
    [("crop", (metaGet filters "crop" "").toLower)] else []) ++
  (if metaHas filters "chemical" then
    [("chemical", (metaGet filters "chemical" "").toLower)] else []) ++
  (if metaHas filters "language" then
    [("language", metaGet filters "language" "")] else [])

/-- Method `KnowledgeSearch.search` (lines 31-86): embed the query, build
the filter, query the index, convert matches; the whole body sits in a
`try` whose `except` returns `[]`, so no failure of either collaborator
escapes. -/
def knowledgeSearch
    (embed : String → Except String (List Int))
    (indexQuery : List Int → Option (List (String × String)) → Nat →
      Except String (List PineconeMatch))
    (query : String) (filters : Option (List (String × String)))
    (top_k : Nat) : List SearchDoc :=
  let body : Except String (List SearchDoc) := do
    let emb ← embed query
    let pineconeFilter := match filters with
      | some fs => some (buildFilter fs)
      | none => none
    let results ← indexQuery emb pineconeFilter top_k
    pure (results.map matchToDoc)
  match body with
  | Except.ok docs => docs
  | Except.error _ => []

/-- Input dict of `add_document` (lines 213-252): `document["text"]` is a
required key (its absence raises `KeyError` inside the `try`); the rest
are read with `dict.get` defaults or copied when present.  `phi_days` is
passed through untouched, kept as a string. -/
structure Document where
  text : Option String := none
  source : Option String := none
  document_type : Option String := none
  language : Option String := none
  crop : Option String := none
  chemical : Option String := none
  phi_days : Option String := none
deriving DecidableEq, Repr

/-- Method `add_document` (lines 213-252): embed the text, build the
metadata dict, form the id from `source` and Python's `hash` (an opaque
parameter here), upsert.  The whole body sits in a `try` that returns
`True` on success and `False` on any exception — the missing `text` key,
an embedding failure, or an upsert failure. -/
def addDocument (now : String)
    (embed : String → Except String (List Int))
    (upsert : String × List Int × List (String × String) →
      Except String Unit)
    (pyHash : String → Int) (document : Document) : Bool :=
  let body : Except String Unit := do
    let text ← match document.text with
      | some t => pure t
      | none => Except.error "KeyError: text"
    let emb ← embed text
    let metadata :=
      [("text", text),
       ("source", document.source.getD "manual"),
       ("document_type", document.document_type.getD "general"),
       ("language", document.language.getD "hr"),
       ("indexed_at", now)] ++
      (match document.crop with
        | some c => [("crop", c.toLower)] | none => []) ++
      (match document.chemical with
        | some c => [("chemical", c.toLower)] | none => []) ++
      (match document.phi_days with
        | some p => [("phi_days", p)] | none => [])
    let docId := document.source.getD "doc" ++ "_" ++
      toString (pyHash text)
    upsert (docId, emb, metadata)
  match body with
  | Except.ok _ => true
  | Except.error _ => false

/-- The statistics dict of `bulk_index_fis_documents` (lines 259-263). -/
structure BulkStats where
  total : Nat
  success : Nat
  failed : Nat
deriving DecidableEq, Repr

/-- Method `bulk_index_fis_documents` (lines 254-273): `total` is the
input length; the loop counts each document as `success` or `failed`
according to the boolean returned by `add_document`. -/
def bulkIndexFisDocuments (now : String)
    (embed : String → Except String (List Int))
    (upsert : String × List Int × List (String × String) →
      Except String Unit)
    (pyHash : String → Int) (documents : List Document) : BulkStats :=
  documents.foldl
    (fun stats doc =>
      if addDocument now embed upsert pyHash doc then
        { stats with success := stats.success + 1 }
      else
        { stats with failed := stats.failed + 1 })
    { total := documents.length, success := 0, failed := 0 }

/-!
Concrete inputs used by the evaluation theorems and witnesses.  The
context and query replicate the example usage at the bottom of
`information_hierarchy.py` (lines 364-377).
-/

/-- The example context of the source's main block (lines 364-371). -/
def exampleContext : LocalizationContext :=
  { whatsapp_number := "+359123456789", country_code := "BG",
    country_name := "Bulgaria", languages := ["bg"],
    farmer_id := some 123, preferred_language := some "bg" }

/-- The example query of the source's main block (lines 374-377). -/
def exampleQuery : InformationQuery :=
  { query_text := "When should I harvest my mangoes?",
    context := exampleContext }

/-- The example query with a zero per-tier cap. -/
def exampleQueryCapZero : InformationQuery :=
  { exampleQuery with max_items_per_level := 0 }

/-- The example query with a negative per-tier cap (a legal Python `int`). -/
def exampleQueryCapNeg : InformationQuery :=
  { exampleQuery with max_items_per_level := -1 }

/-- The example context without a farmer id. -/
def exampleContextNoFarmer : LocalizationContext :=
  { exampleContext with farmer_id := none }

/-- The example context with farmer id `0`. -/
def exampleContextZeroFarmer : LocalizationContext :=
  { exampleContext with farmer_id := some 0 }

/-- A registered cache-kind source holding country and global capability
flags (the constructor defaults of `InformationSource`). -/
def cacheSource : InformationSource :=
  { source_id := "cache1", source_type := "cache",
    source_name := "Cache Source" }

/-- A retrieval collaborator in which exactly one source — the farmer
database — raises. -/
def failingFarmerRetrieval : Retrieval := fun source _ =>
  if source.source_id = "farmer_db" then Except.error "db down"
  else Except.ok []

/-- A farmer-specific item as a faulty collaborator might tag it. -/
def sampleFarmerItem : InformationItem :=
  { content := "field records", relevance :=
      InformationRelevance.FARMER_SPECIFIC }

/-- The sixteen lower-case hexadecimal characters. -/
def hexCharList : List Char := "0123456789abcdef".data

/-!
Supporting lemmas.
-/

lemma pySlice_nil {α : Type} (n : Int) : pySlice n ([] : List α) = [] := by
  unfold pySlice
  split <;> simp

lemma pySlice_length_le {α : Type} (n : Int) (l : List α) (h : 0 ≤ n) :
    ((pySlice n l).length : Int) ≤ n := by
  unfold pySlice
  rw [if_pos h, List.length_take]
  calc ((min n.toNat l.length : Nat) : Int) ≤ (n.toNat : Int) := by
        exact_mod_cast Nat.min_le_left _ _
    _ = n := Int.toNat_of_nonneg h

lemma except_bind_error {α β : Type} (e : String)
    (f : α → Except String β) :
    (Except.error e >>= f) = Except.error e := rfl

lemma except_bind_ok {α β : Type} (a : α) (f : α → Except String β) :
    (Except.ok a >>= f) = f a := rfl

/-- A gated accumulating loop, started from any accumulator, appends one
copy of `m` per element passing the gate, in order. -/
lemma foldl_filter_step {α β : Type} (p : β → Bool) (m : List α) :
    ∀ (l : List β) (acc : List α),
      l.foldl (fun items s => if p s then items ++ m else items) acc =
        acc ++ ((l.filter p).map (fun _ => m)).flatten := by
  intro l
  induction l with
  | nil => intro acc; simp
  | cons s ss ih =>
    intro acc
    rw [List.foldl_cons, List.filter_cons]
    by_cases h : p s = true
    · rw [if_pos h, if_pos h, ih, List.map_cons, List.flatten_cons,
        List.append_assoc]
    · rw [if_neg h, if_neg h, ih]

/-- The nested conditionals of the farmer-tier loop body collapse to a
single gate. -/
lemma farmerStep_eq (q : InformationQuery) (items : List InformationItem)
    (source : InformationSource) :
    (if source.can_access_farmer_data &&
        optIntTruthy q.context.farmer_id then
      if source.source_type = "database" then
        items ++ mockFarmerDatabaseQuery q
      else items
    else items) =
    (if source.can_access_farmer_data && optIntTruthy q.context.farmer_id
        && (source.source_type == "database") then
      items ++ mockFarmerDatabaseQuery q
    else items) := by
  by_cases h1 :
      (source.can_access_farmer_data && optIntTruthy q.context.farmer_id)
        = true
  · by_cases h2 : source.source_type = "database" <;> simp [h1, h2]
  · rw [Bool.not_eq_true] at h1
    simp [h1]

lemma queryFarmerSpecific_eq (sources : List InformationSource)
    (q : InformationQuery) :
    queryFarmerSpecific sources q =
      ((invokedFarmerSources sources q).map
        (fun _ => mockFarmerDatabaseQuery q)).flatten := by
  have hstep :
      (fun (items : List InformationItem) (source : InformationSource) =>
        if source.can_access_farmer_data &&
            optIntTruthy q.context.farmer_id then
          if source.source_type = "database" then
            items ++ mockFarmerDatabaseQuery q
          else items
        else items) =
      (fun items source =>
        if source.can_access_farmer_data && optIntTruthy q.context.farmer_id
            && (source.source_type == "database") then
          items ++ mockFarmerDatabaseQuery q
        else items) := by
    funext items source
    exact farmerStep_eq q items source
  unfold queryFarmerSpecific
  rw [hstep]
  simpa [invokedFarmerSources] using
    foldl_filter_step
      (fun s => s.can_access_farmer_data && optIntTruthy q.context.farmer_id
        && (s.source_type == "database"))
      (mockFarmerDatabaseQuery q) sources []

/-- The nested conditionals of the country-tier loop body collapse to a
single gate. -/
lemma countryStep_eq (q : InformationQuery) (items : List InformationItem)
    (source : InformationSource) :
    (if source.can_access_country_data &&
        strTruthy q.context.country_code then
      if source.source_type = "rag" then
        items ++ mockCountryRagQuery q
      else items
    else items) =
    (if source.can_access_country_data && strTruthy q.context.country_code
        && (source.source_type == "rag") then
      items ++ mockCountryRagQuery q
    else items) := by
  by_cases h1 :
      (source.can_access_country_data && strTruthy q.context.country_code)
        = true
  · by_cases h2 : source.source_type = "rag" <;> simp [h1, h2]
  · rw [Bool.not_eq_true] at h1
    simp [h1]

lemma queryCountrySpecific_eq (sources : List InformationSource)
    (q : InformationQuery) :
    queryCountrySpecific sources q =
      ((invokedCountrySources sources q).map
        (fun _ => mockCountryRagQuery q)).flatten := by
  have hstep :
      (fun (items : List InformationItem) (source : InformationSource) =>
        if source.can_access_country_data &&
            strTruthy q.context.country_code then
          if source.source_type = "rag" then
            items ++ mockCountryRagQuery q
          else items
        else items) =
      (fun items source =>
        if source.can_access_country_data && strTruthy q.context.country_code
            && (source.source_type == "rag") then
          items ++ mockCountryRagQuery q
        else items) := by
    funext items source
    exact countryStep_eq q items source
  unfold queryCountrySpecific
  rw [hstep]
  simpa [invokedCountrySources] using
    foldl_filter_step
      (fun s => s.can_access_country_data && strTruthy q.context.country_code
        && (s.source_type == "rag"))
      (mockCountryRagQuery q) sources []

/-- The nested conditionals of the global-tier loop body collapse to a
single gate. -/
lemma globalStep_eq (q : InformationQuery) (items : List InformationItem)
    (source : InformationSource) :
    (if source.can_access_global_data then
      if source.source_type = "rag" ∨ source.source_type = "external" then
        items ++ mockGlobalQuery q
      else items
    else items) =
    (if source.can_access_global_data &&
        ((source.source_type == "rag") ||
          (source.source_type == "external")) then
      items ++ mockGlobalQuery q
    else items) := by
  by_cases h1 : source.can_access_global_data = true
  · by_cases h2 :
        source.source_type = "rag" ∨ source.source_type = "external"
    · rcases h2 with h2 | h2 <;> simp [h1, h2]
    · push_neg at h2
      simp [h1, h2.1, h2.2]
  · rw [Bool.not_eq_true] at h1
    simp [h1]

lemma queryGlobal_eq (sources : List InformationSource)
    (q : InformationQuery) :
    queryGlobal sources q =
      ((invokedGlobalSources sources q).map
        (fun _ => mockGlobalQuery q)).flatten := by
  have hstep :
      (fun (items : List InformationItem) (source : InformationSource) =>
        if source.can_access_global_data then
          if source.source_type = "rag" ∨ source.source_type = "external"
          then items ++ mockGlobalQuery q
          else items
        else items) =
      (fun items source =>
        if source.can_access_global_data &&
            ((source.source_type == "rag") ||
              (source.source_type == "external")) then
          items ++ mockGlobalQuery q
        else items) := by
    funext items source
    exact globalStep_eq q items source
  unfold queryGlobal
  rw [hstep]
  simpa [invokedGlobalSources] using
    foldl_filter_step
      (fun s => s.can_access_global_data &&
        ((s.source_type == "rag") || (s.source_type == "external")))
      (mockGlobalQuery q) sources []

/-- Projections of `queryInformation`, read off the assembly. -/
lemma queryInformation_farmer_items (now : String)
    (sources : List InformationSource) (q : InformationQuery) :
    (queryInformation now sources q).farmer_items =
      pySlice q.max_items_per_level (farmerCandidates sources q) := rfl

lemma queryInformation_country_items (now : String)
    (sources : List InformationSource) (q : InformationQuery) :
    (queryInformation now sources q).country_items =
      pySlice q.max_items_per_level (countryCandidates sources q) := rfl

lemma queryInformation_global_items (now : String)
    (sources : List InformationSource) (q : InformationQuery) :
    (queryInformation now sources q).global_items =
      pySlice q.max_items_per_level (globalCandidates sources q) := rfl

lemma queryInformation_sources_used (now : String)
    (sources : List InformationSource) (q : InformationQuery) :
    (queryInformation now sources q).metadata.sources_used =
      (if (farmerCandidates sources q).isEmpty then []
        else ["farmer_specific"]) ++
      (if (countryCandidates sources q).isEmpty then []
        else ["country_specific"]) ++
      (if (globalCandidates sources q).isEmpty then []
        else ["global"]) := rfl

/-- With a falsy `farmer_id` no farmer-tier retrieval call site is
reached. -/
lemma invokedFarmerSources_eq_nil (sources : List InformationSource)
    (q : InformationQuery) (h : optIntTruthy q.context.farmer_id = false) :
    invokedFarmerSources sources q = [] := by
  unfold invokedFarmerSources
  apply List.filter_eq_nil_iff.mpr
  intro s _
  simp [h]

/-- With a falsy `farmer_id` the farmer tier of the result is empty. -/
lemma farmer_items_empty (now : String) (sources : List InformationSource)
    (q : InformationQuery) (h : optIntTruthy q.context.farmer_id = false) :
    (queryInformation now sources q).farmer_items = [] := by
  rw [queryInformation_farmer_items]
  have hq : queryFarmerSpecific sources q = [] := by
    rw [queryFarmerSpecific_eq, invokedFarmerSources_eq_nil sources q h]
    rfl
  unfold farmerCandidates
  split
  · rw [hq]
    exact pySlice_nil _
  · exact pySlice_nil _

lemma sha256HexChars_length (s : String) :
    (Sha256.sha256HexChars s).length = 64 := by
  simp [Sha256.sha256HexChars, Sha256.wordHex]

lemma hexDigit_mem_of_lt (n : Nat) (h : n < 16) :
    Sha256.hexDigit n ∈ hexCharList := by
  interval_cases n <;> decide

lemma wordHex_mem (w : Nat) (c : Char) (hc : c ∈ Sha256.wordHex w) :
    c ∈ hexCharList := by
  simp only [Sha256.wordHex, List.mem_cons, List.not_mem_nil, or_false]
    at hc
  rcases hc with h | h | h | h | h | h | h | h <;>
    (subst h; exact hexDigit_mem_of_lt _ (Nat.mod_lt _ (by norm_num)))

lemma sha256HexChars_mem (s : String) (c : Char)
    (hc : c ∈ Sha256.sha256HexChars s) : c ∈ hexCharList := by
  simp only [Sha256.sha256HexChars, List.mem_append] at hc
  rcases hc with (((((((h | h) | h) | h) | h) | h) | h) | h) <;>
    exact wordHex_mem _ _ h

/-- An error of the retrieval collaborator at the first reached farmer-tier
call site propagates out of the farmer-tier loop, from any accumulator. -/
lemma queryFarmerSpecificE_foldl_error (fR : Retrieval)
    (q : InformationQuery) (e : String) :
    ∀ (sources : List InformationSource) (acc : List InformationItem)
      (s : InformationSource) (rest : List InformationSource),
      invokedFarmerSources sources q = s :: rest →
      fR s q = Except.error e →
      sources.foldlM
        (fun items source =>
          if source.can_access_farmer_data &&
              optIntTruthy q.context.farmer_id then
            if source.source_type = "database" then do
              let new ← fR source q
              pure (items ++ new)
            else pure items
          else pure items)
        acc = Except.error e := by
  intro sources
  induction sources with
  | nil =>
    intro acc s rest hinv
    simp [invokedFarmerSources] at hinv
  | cons t ts ih =>
    intro acc s rest hinv herr
    rw [List.foldlM_cons]
    by_cases h1 :
        (t.can_access_farmer_data && optIntTruthy q.context.farmer_id)
          = true
    · by_cases h2 : t.source_type = "database"
      · have hpred : (t.can_access_farmer_data &&
            optIntTruthy q.context.farmer_id &&
            (t.source_type == "database")) = true := by
          simp [h1, h2]
        rw [invokedFarmerSources, List.filter_cons, if_pos hpred] at hinv
        have hst : s = t := (List.cons.injEq .. ▸ hinv).1.symm
        rw [if_pos h1, if_pos h2]
        subst hst
        rw [herr]
        rfl
      · have hpred : (t.can_access_farmer_data &&
            optIntTruthy q.context.farmer_id &&
            (t.source_type == "database")) = false := by
          simp [h2]
        rw [if_pos h1, if_neg h2]
        rw [invokedFarmerSources, List.filter_cons, if_neg (by simp [hpred])]
          at hinv
        exact ih acc s rest hinv herr
    · have hpred : (t.can_access_farmer_data &&
          optIntTruthy q.context.farmer_id &&
          (t.source_type == "database")) = false := by
        rw [Bool.not_eq_true] at h1
        simp [h1]
      rw [if_neg h1]
      rw [invokedFarmerSources, List.filter_cons, if_neg (by simp [hpred])]
        at hinv
      exact ih acc s rest hinv herr

/-- An error at the first reached farmer-tier call site propagates out of
`queryFarmerSpecificE`. -/
lemma queryFarmerSpecificE_error (fR : Retrieval)
    (sources : List InformationSource) (q : InformationQuery) (e : String)
    (s : InformationSource) (rest : List InformationSource)
    (hinv : invokedFarmerSources sources q = s :: rest)
    (herr : fR s q = Except.error e) :
    queryFarmerSpecificE fR sources q = Except.error e :=
  queryFarmerSpecificE_foldl_error fR q e sources [] s rest hinv herr

/-- A farmer-tier retrieval error propagates out of the whole router call:
`query_information` has no handler. -/
lemma queryInformationE_farmer_error (now : String)
    (sources : List InformationSource) (q : InformationQuery)
    (fR cR gR : Retrieval) (e : String)
    (hreq : InformationRelevance.FARMER_SPECIFIC ∈
      q.required_relevance_levels)
    (hQF : queryFarmerSpecificE fR sources q = Except.error e) :
    queryInformationE now sources q fR cR gR = Except.error e := by
  unfold queryInformationE
  rw [if_pos hreq, hQF]
  rfl

/-- With the mock collaborators of the source wired back in, the
exception-aware farmer-tier loop returns exactly the plain loop's items,
from any accumulator. -/
lemma queryFarmerSpecificE_mock_foldl (q : InformationQuery) :
    ∀ (sources : List InformationSource) (acc : List InformationItem),
      sources.foldlM
        (fun items source =>
          if source.can_access_farmer_data &&
              optIntTruthy q.context.farmer_id then
            if source.source_type = "database" then do
              let new ← mockFarmerRetrieval source q
              pure (items ++ new)
            else pure items
          else pure items)
        acc =
      Except.ok (sources.foldl
        (fun items source =>
          if source.can_access_farmer_data &&
              optIntTruthy q.context.farmer_id then
            if source.source_type = "database" then
              items ++ mockFarmerDatabaseQuery q
            else items
          else items)
        acc) := by
  intro sources
  induction sources with
  | nil => intro acc; rfl
  | cons t ts ih =>
    intro acc
    rw [List.foldlM_cons, List.foldl_cons]
    by_cases h1 :
        (t.can_access_farmer_data && optIntTruthy q.context.farmer_id)
          = true
    · by_cases h2 : t.source_type = "database"
      · rw [if_pos h1, if_pos h2, if_pos h1, if_pos h2]
        exact ih (acc ++ mockFarmerDatabaseQuery q)
      · rw [if_pos h1, if_neg h2, if_pos h1, if_neg h2]
        exact ih acc
    · rw [if_neg h1, if_neg h1]
      exact ih acc

lemma queryFarmerSpecificE_mock (sources : List InformationSource)
    (q : InformationQuery) :
    queryFarmerSpecificE mockFarmerRetrieval sources q =
      Except.ok (queryFarmerSpecific sources q) :=
  queryFarmerSpecificE_mock_foldl q sources []

/-- Country-tier analogue of `queryFarmerSpecificE_mock_foldl`. -/
lemma queryCountrySpecificE_mock_foldl (q : InformationQuery) :
    ∀ (sources : List InformationSource) (acc : List InformationItem),
      sources.foldlM
        (fun items source =>
          if source.can_access_country_data &&
              strTruthy q.context.country_code then
            if source.source_type = "rag" then do
              let new ← mockCountryRetrieval source q
              pure (items ++ new)
            else pure items
          else pure items)
        acc =
      Except.ok (sources.foldl
        (fun items source =>
          if source.can_access_country_data &&
              strTruthy q.context.country_code then
            if source.source_type = "rag" then
              items ++ mockCountryRagQuery q
            else items
          else items)
        acc) := by
  intro sources
  induction sources with
  | nil => intro acc; rfl
  | cons t ts ih =>
    intro acc
    rw [List.foldlM_cons, List.foldl_cons]
    by_cases h1 :
        (t.can_access_country_data && strTruthy q.context.country_code)
          = true
    · by_cases h2 : t.source_type = "rag"
      · rw [if_pos h1, if_pos h2, if_pos h1, if_pos h2]
        exact ih (acc ++ mockCountryRagQuery q)
      · rw [if_pos h1, if_neg h2, if_pos h1, if_neg h2]
        exact ih acc
    · rw [if_neg h1, if_neg h1]
      exact ih acc

lemma queryCountrySpecificE_mock (sources : List InformationSource)
    (q : InformationQuery) :
    queryCountrySpecificE mockCountryRetrieval sources q =
      Except.ok (queryCountrySpecific sources q) :=
  queryCountrySpecificE_mock_foldl q sources []

/-- Global-tier analogue of `queryFarmerSpecificE_mock_foldl`. -/
lemma queryGlobalE_mock_foldl (q : InformationQuery) :
    ∀ (sources : List InformationSource) (acc : List InformationItem),
      sources.foldlM
        (fun items source =>
          if source.can_access_global_data then
            if source.source_type = "rag" ∨ source.source_type = "external"
            then do
              let new ← mockGlobalRetrieval source q
              pure (items ++ new)
            else pure items
          else pure items)
        acc =
      Except.ok (sources.foldl
        (fun items source =>
          if source.can_access_global_data then
            if source.source_type = "rag" ∨ source.source_type = "external"
            then items ++ mockGlobalQuery q
            else items
          else items)
        acc) := by
  intro sources
  induction sources with
  | nil => intro acc; rfl
  | cons t ts ih =>
    intro acc
    rw [List.foldlM_cons, List.foldl_cons]
    by_cases h1 : t.can_access_global_data = true
    · by_cases h2 :
          t.source_type = "rag" ∨ t.source_type = "external"
      · rw [if_pos h1, if_pos h2, if_pos h1, if_pos h2]
        exact ih (acc ++ mockGlobalQuery q)
      · rw [if_pos h1, if_neg h2, if_pos h1, if_neg h2]
        exact ih acc
    · rw [if_neg h1, if_neg h1]
      exact ih acc

lemma queryGlobalE_mock (sources : List InformationSource)
    (q : InformationQuery) :
    queryGlobalE mockGlobalRetrieval sources q =
      Except.ok (queryGlobal sources q) :=
  queryGlobalE_mock_foldl q sources []

/-- Adequacy of the exception-aware router model: with the mock
collaborators of the source wired back in, `queryInformationE` returns
exactly `Except.ok` of the plain `queryInformation`. -/
lemma queryInformationE_mock (now : String)
    (sources : List InformationSource) (q : InformationQuery) :
    queryInformationE now sources q mockFarmerRetrieval
      mockCountryRetrieval mockGlobalRetrieval =
    Except.ok (queryInformation now sources q) := by
  unfold queryInformationE queryInformation farmerCandidates
    countryCandidates globalCandidates
  by_cases h1 : InformationRelevance.FARMER_SPECIFIC ∈
      q.required_relevance_levels <;>
    by_cases h2 : InformationRelevance.COUNTRY_SPECIFIC ∈
        q.required_relevance_levels <;>
      by_cases h3 : InformationRelevance.GLOBAL ∈
          q.required_relevance_levels <;>
        simp [h1, h2, h3, queryFarmerSpecificE_mock,
          queryCountrySpecificE_mock, queryGlobalE_mock, except_bind_ok]
          <;> rfl

/-- The `try` in `KnowledgeSearch.search` turns an embedding failure into
an empty result list. -/
lemma knowledgeSearch_embed_error
    (embed : String → Except String (List Int))
    (indexQuery : List Int → Option (List (String × String)) → Nat →
      Except String (List PineconeMatch))
    (qs : String) (fs : Option (List (String × String))) (k : Nat)
    (e : String) (h : embed qs = Except.error e) :
    knowledgeSearch embed indexQuery qs fs k = [] := by
  unfold knowledgeSearch
  rw [h]
  rfl

lemma filter_length_split {α : Type} (p : α → Bool) (l : List α) :
    (l.filter p).length + (l.filter (fun a => ! p a)).length = l.length := by
  induction l with
  | nil => rfl
  | cons a l ih =>
    by_cases h : p a = true <;>
      simp only [List.filter_cons, h, Bool.not_true, Bool.not_false,
        if_pos, if_neg, List.length_cons, Bool.false_eq_true,
        ite_true, ite_false] <;> omega

/-- The bulk-indexing loop, from any starting statistics record. -/
lemma bulk_foldl (f : Document → Bool) (docs : List Document) :
    ∀ (st : BulkStats),
      docs.foldl
        (fun stats doc =>
          if f doc then { stats with success := stats.success + 1 }
          else { stats with failed := stats.failed + 1 }) st =
      { total := st.total,
        success := st.success + (docs.filter f).length,
        failed := st.failed + (docs.filter (fun d => ! f d)).length } := by
  induction docs with
  | nil => intro st; simp
  | cons d ds ih =>
    intro st
    rw [List.foldl_cons, List.filter_cons, List.filter_cons]
    by_cases h : f d = true
    · rw [if_pos h, ih]
      simp only [h, Bool.not_true, Bool.false_eq_true, ite_true, ite_false,
        List.length_cons, BulkStats.mk.injEq]
      refine ⟨trivial, by omega, trivial⟩
    · have h' : f d = false := by rwa [Bool.not_eq_true] at h
      rw [if_neg h, ih]
      simp only [h', Bool.not_false, Bool.false_eq_true, ite_true,
        ite_false, List.length_cons, BulkStats.mk.injEq]
      refine ⟨trivial, trivial, by omega⟩

/-!
Claim theorems.
-/

/-- C2: `validate_privacy_compliance` returns `False` exactly when a
farmer-specific item comes from a source without farmer capability or a
country-specific item comes from a source without country capability; a
global-tier item is always accepted. -/
theorem C2_validate_truth_table (item : InformationItem)
    (source : InformationSource) :
    (validatePrivacyCompliance item source = false ↔
      (item.relevance = InformationRelevance.FARMER_SPECIFIC ∧
        source.can_access_farmer_data = false) ∨
      (item.relevance = InformationRelevance.COUNTRY_SPECIFIC ∧
        source.can_access_country_data = false)) ∧
    (item.relevance = InformationRelevance.GLOBAL →
      validatePrivacyCompliance item source = true) := by
  cases hr : item.relevance <;>
    cases hf : source.can_access_farmer_data <;>
      cases hc : source.can_access_country_data <;>
        simp [validatePrivacyCompliance, hr, hf, hc]

/-- C2 witness: the truth table evaluated at a farmer-tier item offered by
the knowledge-base source (farmer capability false). -/
theorem C2_validate_truth_table_witness :
    (validatePrivacyCompliance sampleFarmerItem ragKnowledgeSource = false ↔
      (sampleFarmerItem.relevance = InformationRelevance.FARMER_SPECIFIC ∧
        ragKnowledgeSource.can_access_farmer_data = false) ∨
      (sampleFarmerItem.relevance = InformationRelevance.COUNTRY_SPECIFIC ∧
        ragKnowledgeSource.can_access_country_data = false)) ∧
    (sampleFarmerItem.relevance = InformationRelevance.GLOBAL →
      validatePrivacyCompliance sampleFarmerItem ragKnowledgeSource
        = true) :=
  C2_validate_truth_table sampleFarmerItem ragKnowledgeSource

/-- C5: when `context.farmer_id` is absent, the farmer tier of the result
of `query_information` is empty whatever sources are registered, as a
normal result. -/
theorem C5_absent_farmer_id (now : String)
    (sources : List InformationSource) (q : InformationQuery)
    (h : q.context.farmer_id = none) :
    (queryInformation now sources q).farmer_items = [] := by
  apply farmer_items_empty
  rw [h]
  rfl

/-- C5 witness: the example query with `farmer_id = None` against the
default registry. -/
theorem C5_absent_farmer_id_witness :
    (queryInformation "2024-01-01T00:00:00" defaultSources
      { query_text := "When should I harvest my mangoes?",
        context := exampleContextNoFarmer }).farmer_items = [] :=
  C5_absent_farmer_id "2024-01-01T00:00:00" defaultSources
    { query_text := "When should I harvest my mangoes?",
      context := exampleContextNoFarmer } rfl

/-- C9: `farmer_id = 0` is falsy in Python, so the farmer-tier precondition
fails and the farmer tier of the result is empty even with farmer-capable
sources registered. -/
theorem C9_zero_farmer_id (now : String)
    (sources : List InformationSource) (q : InformationQuery)
    (h : q.context.farmer_id = some 0) :
    (queryInformation now sources q).farmer_items = [] := by
  apply farmer_items_empty
  rw [h]
  rfl

/-- C9 witness: the example query with `farmer_id = 0` against the default
registry, which contains the farmer-capable database source. -/
theorem C9_zero_farmer_id_witness :
    (queryInformation "2024-01-01T00:00:00" defaultSources
      { query_text := "When should I harvest my mangoes?",
        context := exampleContextZeroFarmer }).farmer_items = [] :=
  C9_zero_farmer_id "2024-01-01T00:00:00" defaultSources
    { query_text := "When should I harvest my mangoes?",
      context := exampleContextZeroFarmer } rfl

/-- C10: `bulk_index_fis_documents` reports `total` equal to the input
length, `success + failed = total`, and counts as successes exactly the
documents on which `add_document` returned `True` (`add_document` itself
absorbs every per-document failure into `False`). -/
theorem C10_bulk_index_stats (now : String)
    (embed : String → Except String (List Int))
    (upsert : String × List Int × List (String × String) →
      Except String Unit)
    (pyHash : String → Int) (documents : List Document) :
    (bulkIndexFisDocuments now embed upsert pyHash documents).total =
      documents.length ∧
    (bulkIndexFisDocuments now embed upsert pyHash documents).success +
      (bulkIndexFisDocuments now embed upsert pyHash documents).failed =
      (bulkIndexFisDocuments now embed upsert pyHash documents).total ∧
    (bulkIndexFisDocuments now embed upsert pyHash documents).success =
      (documents.filter
        (fun d => addDocument now embed upsert pyHash d)).length := by
  unfold bulkIndexFisDocuments
  rw [bulk_foldl (fun d => addDocument now embed upsert pyHash d) documents]
  refine ⟨rfl, ?_, by simp⟩
  simp only [Nat.zero_add]
  exact filter_length_split _ documents

/-- C4 counterexample: a registered cache-kind source carries
`can_access_global_data = true` — so it is eligible on the claim's
capability-flag-only reading (`specEligibleGlobalSources`) — yet the
global-tier loop invokes no retrieval for it and it contributes nothing,
because its `source_type` is neither `"rag"` nor `"external"`, while the
retrieval it would have run returns a non-empty candidate list. -/
theorem C4_counterexample :
    specEligibleGlobalSources [cacheSource] = [cacheSource] ∧
    queryGlobal [cacheSource] exampleQuery = [] ∧
    mockGlobalQuery exampleQuery ≠ [] := by
  refine ⟨rfl, rfl, ?_⟩
  simp [mockGlobalQuery]

/-- C4 amended: eligibility combines the capability flag and the context
precondition with a `source_type` filter — the farmer tier reaches its
retrieval only for sources of type `"database"`, the country tier only
for `"rag"`, the global tier only for `"rag"` or `"external"`; each tier's
items are the concatenation, in registration order, of one retrieval
result per source passing that full gate. -/
theorem C4_eligibility_uses_source_type (sources : List InformationSource)
    (q : InformationQuery) :
    queryFarmerSpecific sources q =
      ((invokedFarmerSources sources q).map
        (fun _ => mockFarmerDatabaseQuery q)).flatten ∧
    queryCountrySpecific sources q =
      ((invokedCountrySources sources q).map
        (fun _ => mockCountryRagQuery q)).flatten ∧
    queryGlobal sources q =
      ((invokedGlobalSources sources q).map
        (fun _ => mockGlobalQuery q)).flatten :=
  ⟨queryFarmerSpecific_eq sources q, queryCountrySpecific_eq sources q,
    queryGlobal_eq sources q⟩

/-- C6 counterexample: `max_items_per_level` is a Python `int` and may be
negative; with the cap `-1` Python slicing `l[:-1]` keeps all but the last
candidate, so the global tier of the default registry keeps 1 of its 2
candidates — and `1 ≤ -1` is false, refuting the claimed bound. -/
theorem C6_counterexample :
    ¬ (((queryInformation "t" defaultSources
          exampleQueryCapNeg).global_items.length : Int) ≤
        exampleQueryCapNeg.max_items_per_level) := by
  decide

/-- C6 amended: for every query whose `max_items_per_level` is
non-negative, each tier list of the result is the Python slice
`[:max_items_per_level]` of that tier's candidate concatenation (built in
registration order) and its length is at most `max_items_per_level`. -/
theorem C6_per_tier_cap (now : String) (sources : List InformationSource)
    (q : InformationQuery) (h : 0 ≤ q.max_items_per_level) :
    ((queryInformation now sources q).farmer_items.length : Int) ≤
      q.max_items_per_level ∧
    ((queryInformation now sources q).country_items.length : Int) ≤
      q.max_items_per_level ∧
    ((queryInformation now sources q).global_items.length : Int) ≤
      q.max_items_per_level ∧
    (queryInformation now sources q).farmer_items =
      pySlice q.max_items_per_level (farmerCandidates sources q) ∧
    (queryInformation now sources q).country_items =
      pySlice q.max_items_per_level (countryCandidates sources q) ∧
    (queryInformation now sources q).global_items =
      pySlice q.max_items_per_level (globalCandidates sources q) := by
  refine ⟨?_, ?_, ?_, rfl, rfl, rfl⟩
  · rw [queryInformation_farmer_items]
    exact pySlice_length_le _ _ h
  · rw [queryInformation_country_items]
    exact pySlice_length_le _ _ h
  · rw [queryInformation_global_items]
    exact pySlice_length_le _ _ h

/-- C6 witness: the cap property applied to the example query (cap 5)
against the default registry. -/
theorem C6_per_tier_cap_witness :
    ((queryInformation "t" defaultSources
        exampleQuery).farmer_items.length : Int) ≤
      exampleQuery.max_items_per_level ∧
    ((queryInformation "t" defaultSources
        exampleQuery).country_items.length : Int) ≤
      exampleQuery.max_items_per_level ∧
    ((queryInformation "t" defaultSources
        exampleQuery).global_items.length : Int) ≤
      exampleQuery.max_items_per_level ∧
    (queryInformation "t" defaultSources exampleQuery).farmer_items =
      pySlice exampleQuery.max_items_per_level
        (farmerCandidates defaultSources exampleQuery) ∧
    (queryInformation "t" defaultSources exampleQuery).country_items =
      pySlice exampleQuery.max_items_per_level
        (countryCandidates defaultSources exampleQuery) ∧
    (queryInformation "t" defaultSources exampleQuery).global_items =
      pySlice exampleQuery.max_items_per_level
        (globalCandidates defaultSources exampleQuery) :=
  C6_per_tier_cap "t" defaultSources exampleQuery (by decide)

/-- C7 counterexample: with `max_items_per_level = 0` the farmer tier of
the result is truncated to empty, yet `"farmer_specific"` is still
recorded in `sources_used`, because the code tests the untruncated
candidate list — refuting the claimed iff between membership and
nonemptiness of the returned tier list. -/
theorem C7_counterexample :
    "farmer_specific" ∈
      (queryInformation "t" defaultSources
        exampleQueryCapZero).metadata.sources_used ∧
    (queryInformation "t" defaultSources
      exampleQueryCapZero).farmer_items = [] := by
  refine ⟨?_, rfl⟩
  decide

lemma isEmpty_iff_eq_nil {α : Type} (l : List α) :
    l.isEmpty = true ↔ l = [] := by
  cases l <;> simp

/-- C7 amended: `sources_used` contains a tier's name exactly when that
tier's untruncated candidate list is non-empty (which coincides with
nonemptiness of the returned tier list whenever the cap is at least 1,
but not for caps that truncate to zero). -/
theorem C7_sources_used_iff (now : String)
    (sources : List InformationSource) (q : InformationQuery) :
    ("farmer_specific" ∈
        (queryInformation now sources q).metadata.sources_used ↔
      farmerCandidates sources q ≠ []) ∧
    ("country_specific" ∈
        (queryInformation now sources q).metadata.sources_used ↔
      countryCandidates sources q ≠ []) ∧
    ("global" ∈
        (queryInformation now sources q).metadata.sources_used ↔
      globalCandidates sources q ≠ []) := by
  rw [queryInformation_sources_used]
  by_cases h1 : (farmerCandidates sources q).isEmpty = true <;>
    by_cases h2 : (countryCandidates sources q).isEmpty = true <;>
      by_cases h3 : (globalCandidates sources q).isEmpty = true <;>
        simp_all [isEmpty_iff_eq_nil]

/-- C8: the context fingerprint is the first 16 hexadecimal characters of
the SHA-256 digest of `whatsapp_number:country_code:preferred_language`;
it always has length 16, all its characters are hexadecimal, and two
contexts agreeing on that triple hash identically. -/
theorem C8_context_fingerprint (ctx ctx2 : LocalizationContext)
    (h1 : ctx.whatsapp_number = ctx2.whatsapp_number)
    (h2 : ctx.country_code = ctx2.country_code)
    (h3 : ctx.preferred_language = ctx2.preferred_language) :
    hashContext ctx =
      String.mk ((Sha256.sha256HexChars (hashContextStr ctx)).take 16) ∧
    (hashContext ctx).length = 16 ∧
    (∀ c ∈ (hashContext ctx).data, c ∈ hexCharList) ∧
    hashContext ctx = hashContext ctx2 := by
  refine ⟨rfl, ?_, ?_, ?_⟩
  · show ((Sha256.sha256HexChars (hashContextStr ctx)).take 16).length = 16
    rw [List.length_take, sha256HexChars_length]
    rfl
  · intro c hc
    exact sha256HexChars_mem _ _
      (List.take_subset 16 (Sha256.sha256HexChars (hashContextStr ctx)) hc)
  · unfold hashContext hashContextStr
    rw [h1, h2, h3]

/-- C8 witness: the fingerprint properties at the example context of the
source's main block. -/
theorem C8_context_fingerprint_witness :
    (hashContext exampleContext =
      String.mk
        ((Sha256.sha256HexChars (hashContextStr exampleContext)).take 16) ∧
    (hashContext exampleContext).length = 16 ∧
    (∀ c ∈ (hashContext exampleContext).data, c ∈ hexCharList) ∧
    hashContext exampleContext = hashContext exampleContext) :=
  C8_context_fingerprint exampleContext exampleContext rfl rfl rfl

/-- C3 counterexample: with the farmer-database collaborator raising and
every other collaborator healthy, `query_information` does not return a
result carrying the other sources' items — the exception escapes the
router, because lines 173-263 contain no handler. -/
theorem C3_counterexample :
    queryInformationE "t" defaultSources exampleQuery
      failingFarmerRetrieval mockCountryRetrieval mockGlobalRetrieval =
    Except.error "db down" := by
  rfl

/-- C3 amended: a retrieval failure is not caught inside
`query_information` — an error raised at the first reached farmer-tier
call site aborts the whole query — while the degrade-gracefully behaviour
lives one level down, in `KnowledgeSearch.search`, whose `try`/`except`
turns its own collaborator failures into an empty result list. -/
theorem C3_failure_propagates (now : String)
    (sources : List InformationSource) (q : InformationQuery)
    (fR cR gR : Retrieval) (e : String) (s : InformationSource)
    (rest : List InformationSource)
    (hreq : InformationRelevance.FARMER_SPECIFIC ∈
      q.required_relevance_levels)
    (hinv : invokedFarmerSources sources q = s :: rest)
    (herr : fR s q = Except.error e) :
    queryInformationE now sources q fR cR gR = Except.error e ∧
    (∀ (embed : String → Except String (List Int))
      (indexQuery : List Int → Option (List (String × String)) → Nat →
        Except String (List PineconeMatch))
      (qs : String) (fs : Option (List (String × String))) (k : Nat),
      embed qs = Except.error e →
      knowledgeSearch embed indexQuery qs fs k = []) := by
  refine ⟨queryInformationE_farmer_error now sources q fR cR gR e hreq
    (queryFarmerSpecificE_error fR sources q e s rest hinv herr), ?_⟩
  intro embed indexQuery qs fs k h
  exact knowledgeSearch_embed_error embed indexQuery qs fs k e h

/-- C3 witness: the propagation property at the failing farmer-database
collaborator and the default registry. -/
theorem C3_failure_propagates_witness :
    (queryInformationE "2024-01-01T00:00:00" defaultSources exampleQuery
      failingFarmerRetrieval mockCountryRetrieval mockGlobalRetrieval =
        Except.error "db down") ∧
    (∀ (embed : String → Except String (List Int))
      (indexQuery : List Int → Option (List (String × String)) → Nat →
        Except String (List PineconeMatch))
      (qs : String) (fs : Option (List (String × String))) (k : Nat),
      embed qs = Except.error "db down" →
      knowledgeSearch embed indexQuery qs fs k = []) :=
  C3_failure_propagates "2024-01-01T00:00:00" defaultSources exampleQuery
    failingFarmerRetrieval mockCountryRetrieval mockGlobalRetrieval
    "db down" farmerDbSource [] (by decide) rfl rfl

/-- C1: on the query path the privacy validator is never invoked — the
instrumented router records zero `validate_privacy_compliance`
invocations while a farmer-tier item (from the farmer-capable database
source, with `farmer_id = 123`) enters the result.  Items reach the
result solely through the eligibility gate of each tier loop, with no
per-item validation. -/
theorem C1_validator_never_invoked :
    (queryInformationChecked "t" defaultSources exampleQuery).2 = [] ∧
    (queryInformationChecked "t" defaultSources
      exampleQuery).1.farmer_items ≠ [] := by
  refine ⟨rfl, ?_⟩
  decide

end AvaOlo
